import Mathlib

/-!
Shallow embedding of the Wallet Identity Card worker
(`src/index.ts`, the x402-gated v2 implementation) together with the
free `/data` and `/prompt` routes and the paid `/card` route.

Network effects are modelled by an explicit `World` record holding, for
one inbound request, the outcome of every upstream interaction the
handler could perform (the four Hiro chain-data lookups, the payment
transaction lookup, the OpenAI generation call, and the artifact-bytes
fetch).  Each route is a pure function of the `World`, the path
parameter and the relevant header; alongside its response it returns
the ordered trace of upstream calls it issued, so that the
"performs zero upstream calls" parts of the specification are statable.
-/

namespace WalletCard

/-! ### JavaScript-semantics helpers -/

/-- JS `a || d` for an optional string `a`: `undefined`/`null` and the
empty string are falsy and yield the default. -/
def jsOr (o : Option String) (d : String) : String :=
  match o with
  | some s => if s = "" then d else s
  | none => d

/-- JS `s || d` for a string `s`: the empty string is falsy. -/
def jsOrStr (s d : String) : String :=
  if s = "" then d else s

/-- JS truthiness of the optional `X-Payment` header value: absent or
empty-string values are falsy. -/
def jsTruthy : Option String → Bool
  | none => false
  | some s => !(s == "")

/-- Character-list prefix test (Boolean). -/
def prefixChars : List Char → List Char → Bool
  | [], _ => true
  | _ :: _, [] => false
  | c :: cs, d :: ds => (c == d) && prefixChars cs ds

/-- JS `String.prototype.startsWith`. -/
def strStartsWith (s pre : String) : Bool :=
  prefixChars pre.data s.data

/-- JS `s.slice(0, n)`. -/
def jsSliceTo (n : Nat) (s : String) : String :=
  ⟨s.data.take n⟩

/-- JS `s.slice(-n)` (last `n` characters; the whole string when shorter). -/
def jsSliceNeg (n : Nat) (s : String) : String :=
  ⟨s.data.drop (s.data.length - n)⟩

/-- Value of a run of decimal digits. -/
def digitsVal (l : List Char) : Nat :=
  l.foldl (fun n c => n * 10 + (c.toNat - '0'.toNat)) 0

/-- JS `BigInt(s)` on the balance strings the provider returns, as an
optional natural: the empty string parses to `0` (as `BigInt('')` does),
a non-empty decimal-digit string parses to its value, and anything else
is `none`, modelling the `SyntaxError` that the surrounding `try` catches.
(Whitespace/hex/sign forms of `BigInt` input are idealised away; provider
balances are decimal-digit strings.) -/
def jsBigIntNat (s : String) : Option Nat :=
  if s = "" then some 0
  else if s.data.all Char.isDigit then some (digitsVal s.data)
  else none

/-- JS `parseInt(s, 10)` on the count strings the provider returns, as an
optional natural: the longest leading run of decimal digits is parsed,
and `none` models the `NaN` produced when no leading digit exists.
(Leading whitespace and sign forms are idealised away.) -/
def jsParseIntNat (s : String) : Option Nat :=
  let digits := s.data.takeWhile Char.isDigit
  if digits.isEmpty then none else some (digitsVal digits)

/-- Character-level split on the two-character separator `::`
(JS `s.split('::')` scanning left to right). -/
def splitOnDoubleColon : List Char → List (List Char)
  | [] => [[]]
  | ':' :: ':' :: rest => [] :: splitOnDoubleColon rest
  | c :: rest =>
    match splitOnDoubleColon rest with
    | [] => [[c]]
    | g :: gs => (c :: g) :: gs

/-- Character-level split on `.` (JS `s.split('.')`). -/
def splitOnDot : List Char → List (List Char)
  | [] => [[]]
  | '.' :: rest => [] :: splitOnDot rest
  | c :: rest =>
    match splitOnDot rest with
    | [] => [[c]]
    | g :: gs => (c :: g) :: gs

/-- JS `s.split('::')`. -/
def jsSplitDoubleColon (s : String) : List String :=
  (splitOnDoubleColon s.data).map (fun l => ⟨l⟩)

/-- JS `s.split('.')`. -/
def jsSplitDot (s : String) : List String :=
  (splitOnDot s.data).map (fun l => ⟨l⟩)

/-- JS template interpolation of a number that may be `NaN`
(`none` prints as `"NaN"`). -/
def jsNumToString : Option Nat → String
  | some n => toString n
  | none => "NaN"

/-- `(Number(micro) / 1_000_000).toFixed(2)` on a microSTX amount,
idealised to exact rational rounding (round half up) to two decimal
places; the claims under study never depend on float rounding noise. -/
def formatFixed2 (micro : Nat) : String :=
  let h := (micro + 5000) / 10000
  let frac := h % 100
  toString (h / 100) ++ "." ++ (if frac < 10 then "0" ++ toString frac else toString frac)

/-! ### Payment configuration (src/index.ts lines 13-17) -/

def PAYMENT_CONTRACT_address : String := "SPP5ZMH9NQDFD2K5CEQZ6P02AP8YPWMQ75TJW20M"

def PAYMENT_CONTRACT_name : String := "simple-oracle"

/-- `${PAYMENT_CONTRACT.address}.${PAYMENT_CONTRACT.name}` (line 39). -/
def expectedContract : String := PAYMENT_CONTRACT_address ++ "." ++ PAYMENT_CONTRACT_name

def CARD_PRICE : Nat := 1

/-! ### Payment verification (src/index.ts lines 20-48) -/

/-- Shape of the `contract_call` sub-object of the Hiro transaction
payload, as far as `verifyPayment` reads it. -/
structure ContractCall where
  contract_id : String
deriving DecidableEq

/-- Duck-typed transaction payload fields read by `verifyPayment`. -/
structure TxResponse where
  tx_status : String
  tx_type : String
  contract_call : Option ContractCall
  sender_address : String
deriving DecidableEq

/-- Outcome of `fetch` + `response.json()` on the transaction lookup:
`exn` is any thrown transport or JSON-parse error (caught by the `try`),
`notOk` is a non-2xx response, `ok` is a parsed payload. -/
inductive TxLookup
  | exn (msg : String)
  | notOk
  | ok (tx : TxResponse)
deriving DecidableEq

/-- Result record of `verifyPayment`. -/
structure VerifyResult where
  valid : Bool
  sender : Option String
  error : Option String
deriving DecidableEq

/-- `txid.startsWith('0x') ? txid : `0x${txid}`` (line 22). -/
def normalizeTxid (txid : String) : String :=
  if strStartsWith txid "0x" then txid else "0x" ++ txid

/-- `verifyPayment` (lines 20-48), over a lookup oracle mapping the
fetched transaction id to its `TxLookup` outcome. -/
def verifyPayment (lookup : String → TxLookup) (txid : String) : VerifyResult :=
  match lookup (normalizeTxid txid) with
  | .exn msg => ⟨false, none, some ("Verification failed: " ++ msg)⟩
  | .notOk => ⟨false, none, some "Transaction not found"⟩
  | .ok tx =>
    if tx.tx_status ≠ "success" then
      ⟨false, none, some ("Transaction status: " ++ tx.tx_status)⟩
    else if tx.tx_type ≠ "contract_call" then
      ⟨false, none, some "Not a contract call"⟩
    else if tx.contract_call.map ContractCall.contract_id ≠ some expectedContract then
      ⟨false, none, some "Wrong contract"⟩
    else
      ⟨true, some tx.sender_address, none⟩

/-! ### Wallet data model (src/index.ts lines 53-60) -/

structure FtEntry where
  symbol : String
  balance : String
  name : String
deriving DecidableEq

structure NftEntry where
  name : String
  collection : String
deriving DecidableEq

/-- `WalletData` (lines 53-60); `nftCount` is an optional natural, with
`none` modelling the `NaN` a malformed provider count would induce. -/
structure WalletData where
  address : String
  bnsName : Option String
  stxBalance : String
  ftBalances : List FtEntry
  nftCount : Option Nat
  topNfts : List NftEntry
deriving DecidableEq

/-! ### Chain-data payload shapes (duck-typed fields actually read) -/

/-- Outcome of one upstream `fetch` + `json()`: `ok` carries the parsed
payload, `httpErr` is a non-2xx response, `exn` any thrown transport or
parse error (caught by each getter's `try`). -/
inductive FetchResult (α : Type)
  | ok (data : α)
  | httpErr
  | exn
deriving DecidableEq

/-- `true` on the two failure outcomes. -/
def FetchResult.isFail {α : Type} : FetchResult α → Bool
  | .ok _ => false
  | .httpErr => true
  | .exn => true

/-- BNS payload: only `names` (an array of strings) is read. -/
structure BnsPayload where
  names : Option (List String)
deriving DecidableEq

structure StxField where
  balance : Option String
deriving DecidableEq

structure FtRaw where
  balance : Option String
deriving DecidableEq

structure NftRaw where
  count : Option String
deriving DecidableEq

/-- Balances payload: `stx.balance`, `fungible_tokens` and
`non_fungible_tokens` are the only fields read.  `Object.entries`
preserves insertion order, so the token maps are modelled as ordered
key/value lists. -/
structure BalancesPayload where
  stx : Option StxField
  fungible_tokens : Option (List (String × FtRaw))
  non_fungible_tokens : Option (List (String × NftRaw))
deriving DecidableEq

/-! ### Chain Data Client getters (src/index.ts lines 63-128) -/

/-- `getBnsName` (lines 63-72): `data.names?.[0] || null`. -/
def getBnsName : FetchResult BnsPayload → Option String
  | .httpErr => none
  | .exn => none
  | .ok data =>
    match data.names with
    | none => none
    | some names =>
      match names.head? with
      | none => none
      | some s => if s = "" then none else some s

/-- `getStxBalance` (lines 75-85): `BigInt(data.stx?.balance || '0')`
scaled to STX with two decimals; any failure or parse throw yields `"0"`. -/
def getStxBalance : FetchResult BalancesPayload → String
  | .httpErr => "0"
  | .exn => "0"
  | .ok data =>
    match jsBigIntNat (jsOr (data.stx.bind StxField.balance) "0") with
    | some n => formatFixed2 n
    | none => "0"

/-- JS `Array.prototype.map` with a callback that may throw: a single
throw aborts the whole map (and is caught by the getter's `try`). -/
def mapThrow {α β : Type} (f : α → Option β) : List α → Option (List β)
  | [] => some []
  | x :: xs =>
    match f x, mapThrow f xs with
    | some y, some ys => some (y :: ys)
    | _, _ => none

/-- The per-entry body of `getFtBalances`'s map (lines 94-100); `none`
models the `BigInt` throw on a malformed balance. -/
def ftEntryOfRaw (kv : String × FtRaw) : Option FtEntry :=
  let parts := jsSplitDoubleColon kv.1
  match jsBigIntNat (jsOr kv.2.balance "0") with
  | none => none
  | some n =>
    some { name := jsOr (parts.get? 1) "Token"
           symbol := jsOr ((parts.get? 1).map (jsSliceTo 6)) "TKN"
           balance := formatFixed2 n }

/-- `getFtBalances` (lines 88-105): first 5 entries of
`fungible_tokens` in provider order; any failure yields `[]`. -/
def getFtBalances : FetchResult BalancesPayload → List FtEntry
  | .httpErr => []
  | .exn => []
  | .ok data =>
    let fts := data.fungible_tokens.getD []
    match mapThrow ftEntryOfRaw (fts.take 5) with
    | some entries => entries
    | none => []

/-- Aggregated non-fungible holdings; `count` is `none` when the JS sum
is `NaN`. -/
structure NftHoldings where
  count : Option Nat
  top : List NftEntry
deriving DecidableEq

/-- The per-entry body of `getNftHoldings`'s `top` map (lines 117-123). -/
def nftTopOfRaw (kv : String × NftRaw) : NftEntry :=
  let parts := jsSplitDoubleColon kv.1
  { collection := jsOr ((parts.get? 0).bind (fun p => (jsSplitDot p).get? 1)) "Unknown"
    name := jsOr (parts.get? 1) "NFT" }

/-- The `reduce` of line 116: sum of `parseInt(nft.count || '0', 10)`
over ALL entries, with `NaN` (`none`) absorbing. -/
def nftCountSum (entries : List (String × NftRaw)) : Option Nat :=
  entries.foldl
    (fun acc kv =>
      match acc, jsParseIntNat (jsOr kv.2.count "0") with
      | some a, some b => some (a + b)
      | _, _ => none)
    (some 0)

/-- `getNftHoldings` (lines 108-128): count sums over all entries, `top`
keeps the first 3 in provider order; any failure yields `{0, []}`. -/
def getNftHoldings : FetchResult BalancesPayload → NftHoldings
  | .httpErr => { count := some 0, top := [] }
  | .exn => { count := some 0, top := [] }
  | .ok data =>
    let entries := data.non_fungible_tokens.getD []
    { count := nftCountSum entries
      top := (entries.take 3).map nftTopOfRaw }

/-! ### Prompt Builder (src/index.ts lines 131-156) -/

/-- `buildImagePrompt` (lines 131-156), a pure function of the
`WalletData` record; the template is reproduced byte for byte with
`\n` for the literal newlines. -/
def buildImagePrompt (wallet : WalletData) : String :=
  let name := jsOr wallet.bnsName
    (jsSliceTo 8 wallet.address ++ "..." ++ jsSliceNeg 4 wallet.address)
  let nfts := jsOrStr (String.intercalate ", " (wallet.topNfts.map NftEntry.collection)) "none"
  let tokens :=
    if wallet.ftBalances.length > 0 then
      String.intercalate ", " (wallet.ftBalances.map FtEntry.name)
    else "STX only"
  "Create a sleek digital identity card for a cryptocurrency wallet holder.\n\n" ++
  "Style: Modern cyberpunk aesthetic, dark background (#0a0a0f) with vibrant orange (#f7931a) and electric blue (#00d4ff) accent colors. Premium holographic effect.\n\n" ++
  "Layout: Horizontal card (16:9), like a premium membership card.\n\n" ++
  "Elements to include:\n" ++
  "- Display name prominently: \"" ++ name ++ "\"\n" ++
  "- Balance display: \"" ++ wallet.stxBalance ++ " STX\"\n" ++
  "- Token badges: " ++ tokens ++ "\n" ++
  "- NFT count: \"" ++ jsNumToString wallet.nftCount ++ " NFTs\"\n" ++
  "- Abstract circuit/blockchain pattern in background\n" ++
  "- Subtle grid lines suggesting a digital ledger\n" ++
  "- Holographic shimmer strip on one edge\n" ++
  "- Small Stacks logo watermark\n\n" ++
  "Typography: Clean sans-serif, high contrast white text on dark.\n" ++
  "Overall feel: Exclusive crypto club membership, collectible, premium."

/-! ### Artifact Generator Client (src/index.ts lines 159-190) -/

/-- Outcome of the OpenAI `fetch` + body parse inside `generateImage`:
`exn` is any thrown error (caught by the `try`), `notOk` a non-2xx
response carrying `error.error?.message` of its parsed body, `ok` a 2xx
response carrying `data.data[0].url`. -/
inductive GenFetch
  | exn (msg : String)
  | notOk (errMessage : Option String)
  | ok (url : String)
deriving DecidableEq

/-- Result record of `generateImage`. -/
structure GenResult where
  success : Bool
  imageUrl : Option String
  error : Option String
deriving DecidableEq

/-- Outcome of the artifact-bytes `fetch` (lines 363-372): this call is
NOT wrapped in a `try`, so `exn` models a thrown error escaping the
handler to the framework. -/
inductive ImgFetch
  | exn
  | notOk
  | ok (bytes : List Nat)
deriving DecidableEq

/-- One upstream interaction, for call traces. -/
inductive UpstreamCall
  | bnsLookup (address : String)
  | balancesLookup (address : String)
  | txLookup (txid : String)
  | genImage (prompt : String)
  | imageFetch (url : String)
deriving DecidableEq

/-- `generateImage` (lines 159-190) with its upstream call trace: the
empty key short-circuits before any fetch (`if (!apiKey)`). -/
def generateImage (apiKey : String) (genRes : String → GenFetch) (prompt : String) :
    GenResult × List UpstreamCall :=
  if apiKey = "" then
    (⟨false, none, some "Image generation not configured"⟩, [])
  else
    match genRes prompt with
    | .exn msg => (⟨false, none, some ("Image generation error: " ++ msg)⟩, [.genImage prompt])
    | .notOk m => (⟨false, none, some (jsOr m "Image generation failed")⟩, [.genImage prompt])
    | .ok url => (⟨true, some url, none⟩, [.genImage prompt])

/-! ### Request-scoped world -/

/-- Everything the environment supplies to one inbound request: the
outcomes of the four chain-data fetches (one per getter; the three
balance getters hit the same endpoint with separate fetches), the
transaction-lookup oracle, the `OPENAI_API_KEY` binding, the generation
and artifact-fetch oracles, and the request-time freshness values
(`crypto.randomUUID()` and the ISO expiry derived from `Date.now()`). -/
structure World where
  bnsRes : FetchResult BnsPayload
  stxRes : FetchResult BalancesPayload
  ftRes : FetchResult BalancesPayload
  nftRes : FetchResult BalancesPayload
  txRes : String → TxLookup
  openaiKey : Option String
  genRes : String → GenFetch
  imgRes : String → ImgFetch
  nonce : String
  expiresAt : String

/-! ### Address validation (the `^S[PM][A-Z0-9]\x7b38,40\x7d$` check) -/

/-- `[A-Z0-9]`. -/
def isAddrChar (c : Char) : Bool :=
  ('A' ≤ c && c ≤ 'Z') || ('0' ≤ c && c ≤ '9')

/-- `address.match(/^S[PM][A-Z0-9]\x7b38,40\x7d$/) !== null`. -/
def validAddress (s : String) : Bool :=
  match s.data with
  | 'S' :: p :: rest =>
    (p == 'P' || p == 'M') && rest.all isAddrChar &&
      (decide (38 ≤ rest.length) && decide (rest.length ≤ 40))
  | _ => false

/-! ### Wallet aggregation (identical inline block of the three routes) -/

/-- The four concurrent chain-data fetches a route issues for one
aggregation (`Promise.all` fan-out, in source order: BNS, then the
balances endpoint three times for STX / FT / NFT). -/
def walletLookupCalls (address : String) : List UpstreamCall :=
  [.bnsLookup address, .balancesLookup address, .balancesLookup address, .balancesLookup address]

/-- The `walletData` record each route assembles from the four getter
results (lines 231-245, 258-272, 331-345 — the same block thrice). -/
def aggregateWallet (w : World) (address : String) : WalletData :=
  { address := address
    bnsName := getBnsName w.bnsRes
    stxBalance := getStxBalance w.stxRes
    ftBalances := getFtBalances w.ftRes
    nftCount := (getNftHoldings w.nftRes).count
    topNfts := (getNftHoldings w.nftRes).top }

/-! ### Response payloads -/

/-- The `payment` sub-object of the 402 challenge (lines 302-309). -/
structure PaymentInfo where
  contract : String
  function : String
  price : Nat
  token : String
  recipient : String
  network : String
deriving DecidableEq

/-- The 402 challenge payload (lines 298-318). -/
structure ChallengePayload where
  error : String
  code : String
  resource : String
  payment : PaymentInfo
  instructions : List String
  nonce : String
  expiresAt : String
  description : String
deriving DecidableEq

/-- The `instructions` array literal (lines 310-314). -/
def challengeInstructions : List String :=
  ["1. Call the contract function with STX payment",
   "2. Wait for transaction confirmation",
   "3. Retry request with X-Payment header containing txid"]

/-- The 402 challenge object built at lines 298-318. -/
def mkChallenge (address nonce expiresAt : String) : ChallengePayload :=
  { error := "Payment Required"
    code := "PAYMENT_REQUIRED"
    resource := "/card/" ++ address
    payment :=
      { contract := expectedContract
        function := "call-with-stx"
        price := CARD_PRICE
        token := "STX"
        recipient := PAYMENT_CONTRACT_address
        network := "mainnet" }
    instructions := challengeInstructions
    nonce := nonce
    expiresAt := expiresAt
    description := "Generate AI-powered wallet identity card" }

/-- The top-level keys of the 402 challenge JSON literal
(lines 298-318), in source order. -/
def challengeFields : List String :=
  ["error", "code", "resource", "payment", "instructions", "nonce", "expiresAt", "description"]

/-- The keys of the generation-failure 500 JSON literal (lines 352-359). -/
def genFailedFields : List String :=
  ["error", "details", "walletData", "prompt", "payment_received", "payment_txid"]

/-- The keys of the artifact-fetch-failure 500 JSON literal (lines 365-369). -/
def imgFetchFailedFields : List String :=
  ["error", "imageUrl", "walletData"]

/-- Response headers of the 200 image response (lines 374-382). -/
structure CardHeaders where
  contentType : String
  cacheControl : String
  xWalletAddress : String
  xBnsName : String
  xPaymentVerified : String
deriving DecidableEq

/-- Responses of `GET /data/:address`. -/
inductive DataResp
  | badRequest (error : String)
  | okData (walletData : WalletData)
deriving DecidableEq

def DataResp.status : DataResp → Nat
  | .badRequest _ => 400
  | .okData _ => 200

/-- The `note` string of the `/prompt` 200 body (line 279). -/
def promptNote : String :=
  "This prompt will be sent to AI image generation when you call /card/:address"

/-- Responses of `GET /prompt/:address`. -/
inductive PromptResp
  | badRequest (error : String)
  | okPrompt (walletData : WalletData) (prompt : String) (note : String)
deriving DecidableEq

def PromptResp.status : PromptResp → Nat
  | .badRequest _ => 400
  | .okPrompt _ _ _ => 200

/-- Responses of `GET /card/:address`, one constructor per `return` of
the handler; `uncaught` is an exception escaping the un-`try`ed
artifact-bytes fetch to the framework. -/
inductive CardResp
  | badRequest (error : String)
  | challenge (payload : ChallengePayload)
  | verifyFailed (details : Option String)
  | genFailed (details : Option String) (walletData : WalletData) (prompt : String)
      (payment_received : Bool) (payment_txid : String)
  | imgFetchFailed (imageUrl : String) (walletData : WalletData)
  | uncaught
  | image (bytes : List Nat) (headers : CardHeaders)
deriving DecidableEq

def CardResp.status : CardResp → Nat
  | .badRequest _ => 400
  | .challenge _ => 402
  | .verifyFailed _ => 403
  | .genFailed _ _ _ _ _ => 500
  | .imgFetchFailed _ _ => 500
  | .uncaught => 500
  | .image _ _ => 200

/-! ### Routes -/

/-- `GET /data/:address` (lines 222-248). -/
def dataRoute (w : World) (address : String) : DataResp × List UpstreamCall :=
  if validAddress address = false then
    (.badRequest "Invalid Stacks address format", [])
  else
    (.okData (aggregateWallet w address), walletLookupCalls address)

/-- `GET /prompt/:address` (lines 251-281). -/
def promptRoute (w : World) (address : String) : PromptResp × List UpstreamCall :=
  if validAddress address = false then
    (.badRequest "Invalid Stacks address format", [])
  else
    let walletData := aggregateWallet w address
    let prompt := buildImagePrompt walletData
    (.okPrompt walletData prompt promptNote, walletLookupCalls address)

/-- `GET /card/:address` (lines 284-383); `paymentTxid` is the
`X-Payment` header (`none` when absent). -/
def cardRoute (w : World) (address : String) (paymentTxid : Option String) :
    CardResp × List UpstreamCall :=
  if validAddress address = false then
    (.badRequest "Invalid Stacks address format", [])
  else if jsTruthy paymentTxid = false then
    (.challenge (mkChallenge address w.nonce w.expiresAt), [])
  else
    let txid := paymentTxid.getD ""
    let verification := verifyPayment w.txRes txid
    let trace0 := [UpstreamCall.txLookup (normalizeTxid txid)]
    if verification.valid = false then
      (.verifyFailed verification.error, trace0)
    else
      let walletData := aggregateWallet w address
      let prompt := buildImagePrompt walletData
      let gres := generateImage (jsOr w.openaiKey "") w.genRes prompt
      let trace1 := trace0 ++ walletLookupCalls address ++ gres.2
      if gres.1.success = false then
        (.genFailed gres.1.error walletData prompt true txid, trace1)
      else
        let url := gres.1.imageUrl.getD ""
        match w.imgRes url with
        | .exn => (.uncaught, trace1 ++ [.imageFetch url])
        | .notOk => (.imgFetchFailed url walletData, trace1 ++ [.imageFetch url])
        | .ok bytes =>
          (.image bytes
            { contentType := "image/png"
              cacheControl := "public, max-age=3600"
              xWalletAddress := address
              xBnsName := jsOr walletData.bnsName "none"
              xPaymentVerified := "true" },
           trace1 ++ [.imageFetch url])

/-! ### Concrete request fixtures used by witnesses and counterexamples -/

/-- A well-formed mainnet address (the example of the repo's OpenAPI spec). -/
def A0 : String := "SP2J6ZY48GV1EZ5V2V5RB9MP66SW86PYKKNRV9EJ7"

/-- A transaction payload satisfying all four validity conditions. -/
def txValid : TxResponse :=
  { tx_status := "success"
    tx_type := "contract_call"
    contract_call := some { contract_id := expectedContract }
    sender_address := "SPSENDER" }

/-- A request world: all four chain-data lookups fail, the lookup oracle
knows one fully-valid payment transaction `0xabc`, the generator accepts
and returns a URL, and the artifact-bytes fetch fails with a non-2xx. -/
def w0 : World :=
  { bnsRes := .httpErr
    stxRes := .httpErr
    ftRes := .httpErr
    nftRes := .httpErr
    txRes := fun t => if t = "0xabc" then .ok txValid else .notOk
    openaiKey := some "test-key"
    genRes := fun _ => .ok "https://images.example/one"
    imgRes := fun _ => .notOk
    nonce := "nonce-0000"
    expiresAt := "2026-01-01T00:10:00.000Z" }

/-! ### Helper lemmas -/

lemma contractCall_map_eq (cc : Option ContractCall) :
    cc.map ContractCall.contract_id = some expectedContract ↔
      cc = some ⟨expectedContract⟩ := by
  cases cc with
  | none => simp
  | some c => cases c with | mk cid => simp

lemma strStartsWith_append0x (t : String) : strStartsWith ("0x" ++ t) "0x" = true := by
  cases t with
  | mk l => simp [strStartsWith, prefixChars]

lemma jsTruthy_some_of_ne (t : String) (h : t ≠ "") : jsTruthy (some t) = true := by
  simp [jsTruthy, h]

/-- `mapThrow` succeeds with exactly the pointwise results when every
callback invocation succeeds. -/
lemma mapThrow_of_map_some {α β : Type} (f : α → Option β) :
    ∀ (l : List α) (es : List β), l.map f = es.map some → mapThrow f l = some es := by
  intro l
  induction l with
  | nil =>
    intro es h
    cases es with
    | nil => rfl
    | cons e es' => simp at h
  | cons x xs ih =>
    intro es h
    cases es with
    | nil => simp at h
    | cons e es' =>
      simp only [List.map_cons, List.cons.injEq] at h
      rw [mapThrow, h.1, ih es' h.2]

lemma nftCountSum_go (parse : String × NftRaw → Option Nat) :
    ∀ (ents : List (String × NftRaw)) (vals : List Nat) (a : Nat),
      ents.map parse = vals.map some →
      ents.foldl
        (fun acc kv =>
          match acc, parse kv with
          | some x, some b => some (x + b)
          | _, _ => none)
        (some a) = some (a + vals.sum) := by
  intro ents
  induction ents with
  | nil =>
    intro vals a h
    cases vals with
    | nil => simp
    | cons v vs => simp at h
  | cons kv rest ih =>
    intro vals a h
    cases vals with
    | nil => simp at h
    | cons v vs =>
      simp only [List.map_cons, List.cons.injEq] at h
      rw [List.foldl_cons, h.1, ih vs (a + v) h.2]
      simp [Nat.add_assoc]

/-- The `reduce` of `getNftHoldings` is the plain sum when every entry's
count parses. -/
lemma nftCountSum_of_parses (ents : List (String × NftRaw)) (vals : List Nat)
    (h : ents.map (fun kv => jsParseIntNat (jsOr kv.2.count "0")) = vals.map some) :
    nftCountSum ents = some vals.sum := by
  have := nftCountSum_go (fun kv => jsParseIntNat (jsOr kv.2.count "0")) ents vals 0 h
  simpa [nftCountSum] using this

lemma getBnsName_of_fail (r : FetchResult BnsPayload) (h : r.isFail = true) :
    getBnsName r = none := by
  cases r with
  | ok d => simp [FetchResult.isFail] at h
  | httpErr => rfl
  | exn => rfl

lemma getStxBalance_of_fail (r : FetchResult BalancesPayload) (h : r.isFail = true) :
    getStxBalance r = "0" := by
  cases r with
  | ok d => simp [FetchResult.isFail] at h
  | httpErr => rfl
  | exn => rfl

lemma getFtBalances_of_fail (r : FetchResult BalancesPayload) (h : r.isFail = true) :
    getFtBalances r = [] := by
  cases r with
  | ok d => simp [FetchResult.isFail] at h
  | httpErr => rfl
  | exn => rfl

lemma getNftHoldings_of_fail (r : FetchResult BalancesPayload) (h : r.isFail = true) :
    getNftHoldings r = { count := some 0, top := [] } := by
  cases r with
  | ok d => simp [FetchResult.isFail] at h
  | httpErr => rfl
  | exn => rfl

/-! ### Claim theorems -/

/-- C2: `verifyPayment` returns a Valid verdict (with the payer's sender
address) iff the lookup is found (2xx), the status is `success`, the type
is `contract_call`, and the invoked contract is the configured expected
contract; every Invalid verdict — including transport exceptions and
lookup failures — carries a reason string. -/
theorem c2_verifyPayment_valid_iff (lookup : String → TxLookup) (txid : String) :
    ((verifyPayment lookup txid).valid = true ↔
      ∃ tx : TxResponse, lookup (normalizeTxid txid) = TxLookup.ok tx ∧
        tx.tx_status = "success" ∧ tx.tx_type = "contract_call" ∧
        tx.contract_call = some ⟨expectedContract⟩) ∧
    (∀ tx : TxResponse, lookup (normalizeTxid txid) = TxLookup.ok tx →
      (verifyPayment lookup txid).valid = true →
      (verifyPayment lookup txid).sender = some tx.sender_address) ∧
    ((verifyPayment lookup txid).valid = false →
      (verifyPayment lookup txid).error.isSome = true) := by
  refine ⟨?_, ?_, ?_⟩
  · constructor
    · intro hv
      cases h : lookup (normalizeTxid txid) with
      | exn msg => simp only [verifyPayment, h] at hv; simp at hv
      | notOk => simp only [verifyPayment, h] at hv; simp at hv
      | ok tx =>
        simp only [verifyPayment, h] at hv
        by_cases h1 : tx.tx_status = "success"
        · by_cases h2 : tx.tx_type = "contract_call"
          · by_cases h3 : tx.contract_call.map ContractCall.contract_id = some expectedContract
            · exact ⟨tx, rfl, h1, h2, (contractCall_map_eq tx.contract_call).mp h3⟩
            · simp [h1, h2, h3] at hv
          · simp [h1, h2] at hv
        · simp [h1] at hv
    · rintro ⟨tx, h, h1, h2, h3⟩
      have h3' : tx.contract_call.map ContractCall.contract_id = some expectedContract :=
        (contractCall_map_eq tx.contract_call).mpr h3
      simp only [verifyPayment, h]
      simp [h1, h2, h3']
  · intro tx h hv
    simp only [verifyPayment, h] at hv ⊢
    split_ifs at hv ⊢ with g1 g2 g3
    all_goals first | rfl | simp at hv
  · intro hv
    cases h : lookup (normalizeTxid txid) with
    | exn msg => simp only [verifyPayment, h]; rfl
    | notOk => simp only [verifyPayment, h]; rfl
    | ok tx =>
      simp only [verifyPayment, h] at hv ⊢
      split_ifs at hv ⊢ with g1 g2 g3
      all_goals first | rfl | simp at hv

/-- C2 witness: a concrete lookup world in which the referenced
transaction meets all four conditions, so the verdict is Valid. -/
theorem c2_witness : (verifyPayment w0.txRes "abc").valid = true :=
  (c2_verifyPayment_valid_iff w0.txRes "abc").1.mpr ⟨txValid, by decide, rfl, rfl, rfl⟩

/-- C10: payment-claim normalization prepends `0x` exactly when the
input does not already start with it, always yields a `0x`-prefixed
reference, is idempotent, and `verifyPayment` performs no shape check of
its own — its verdict depends only on the lookup's answer at the
normalized reference. -/
theorem c10_normalization (t : String) (l l2 : String → TxLookup) :
    (strStartsWith t "0x" = true → normalizeTxid t = t) ∧
    (strStartsWith t "0x" = false → normalizeTxid t = "0x" ++ t) ∧
    strStartsWith (normalizeTxid t) "0x" = true ∧
    normalizeTxid (normalizeTxid t) = normalizeTxid t ∧
    (l (normalizeTxid t) = l2 (normalizeTxid t) → verifyPayment l t = verifyPayment l2 t) := by
  have epos : strStartsWith t "0x" = true → normalizeTxid t = t := by
    intro h; rw [normalizeTxid, if_pos h]
  have eneg : strStartsWith t "0x" = false → normalizeTxid t = "0x" ++ t := by
    intro h; rw [normalizeTxid, if_neg (by simp [h])]
  have estart : strStartsWith (normalizeTxid t) "0x" = true := by
    by_cases h : strStartsWith t "0x" = true
    · rw [epos h]; exact h
    · rw [eneg (by simpa using h)]; exact strStartsWith_append0x t
  refine ⟨epos, eneg, estart, ?_, ?_⟩
  · by_cases h : strStartsWith t "0x" = true
    · rw [epos h, epos h]
    · rw [eneg (by simpa using h), normalizeTxid, if_pos (strStartsWith_append0x t)]
  · intro h
    rw [verifyPayment, verifyPayment, h]

/-- C10 witness: concrete normalizations and a concrete
lookup-equality transfer. -/
theorem c10_witness :
    normalizeTxid "abc" = "0x" ++ "abc" ∧
    normalizeTxid (normalizeTxid "abc") = normalizeTxid "abc" ∧
    verifyPayment w0.txRes "abc" = verifyPayment w0.txRes "abc" :=
  ⟨(c10_normalization "abc" w0.txRes w0.txRes).2.1 (by decide),
   (c10_normalization "abc" w0.txRes w0.txRes).2.2.2.1,
   (c10_normalization "abc" w0.txRes w0.txRes).2.2.2.2 rfl⟩

/-- C3: for every valid address, wallet aggregation is total — when all
four upstream lookups fail, every field takes its failure default
(no name, `"0"` balance, no holdings, zero count, no collections) and
`/data` still answers 200 with that maximally-degraded record. -/
theorem c3_degraded_record (w : World) (addr : String)
    (haddr : validAddress addr = true)
    (h1 : w.bnsRes.isFail = true) (h2 : w.stxRes.isFail = true)
    (h3 : w.ftRes.isFail = true) (h4 : w.nftRes.isFail = true) :
    aggregateWallet w addr =
      { address := addr, bnsName := none, stxBalance := "0",
        ftBalances := [], nftCount := some 0, topNfts := [] } ∧
    dataRoute w addr =
      (DataResp.okData
        { address := addr, bnsName := none, stxBalance := "0",
          ftBalances := [], nftCount := some 0, topNfts := [] },
       walletLookupCalls addr) ∧
    (DataResp.okData (aggregateWallet w addr)).status = 200 := by
  have hagg : aggregateWallet w addr =
      { address := addr, bnsName := none, stxBalance := "0",
        ftBalances := [], nftCount := some 0, topNfts := [] } := by
    rw [aggregateWallet, getBnsName_of_fail w.bnsRes h1, getStxBalance_of_fail w.stxRes h2,
        getFtBalances_of_fail w.ftRes h3, getNftHoldings_of_fail w.nftRes h4]
  refine ⟨hagg, ?_, rfl⟩
  rw [dataRoute, if_neg (by simp [haddr]), hagg]

/-- C3 witness: the all-failing world `w0` on the concrete valid
address. -/
theorem c3_witness :
    aggregateWallet w0 A0 =
      { address := A0, bnsName := none, stxBalance := "0",
        ftBalances := [], nftCount := some 0, topNfts := [] } ∧
    dataRoute w0 A0 =
      (DataResp.okData
        { address := A0, bnsName := none, stxBalance := "0",
          ftBalances := [], nftCount := some 0, topNfts := [] },
       walletLookupCalls A0) ∧
    (DataResp.okData (aggregateWallet w0 A0)).status = 200 :=
  c3_degraded_record w0 A0 (by decide) rfl rfl rfl rfl

/-- C4: every address failing the shape pattern gets a 400 response with
the `error` string on all three parameterised routes, and no upstream
call is performed. -/
theorem c4_invalid_address (w : World) (addr : String) (hdr : Option String)
    (h : validAddress addr = false) :
    dataRoute w addr = (DataResp.badRequest "Invalid Stacks address format", []) ∧
    promptRoute w addr = (PromptResp.badRequest "Invalid Stacks address format", []) ∧
    cardRoute w addr hdr = (CardResp.badRequest "Invalid Stacks address format", []) ∧
    (DataResp.badRequest "Invalid Stacks address format").status = 400 ∧
    (PromptResp.badRequest "Invalid Stacks address format").status = 400 ∧
    (CardResp.badRequest "Invalid Stacks address format").status = 400 := by
  refine ⟨?_, ?_, ?_, rfl, rfl, rfl⟩
  · rw [dataRoute, if_pos h]
  · rw [promptRoute, if_pos h]
  · rw [cardRoute, if_pos h]

/-- C4 witness: a malformed address is rejected by all three routes with
zero upstream calls. -/
theorem c4_witness :
    dataRoute w0 "not-an-address" = (DataResp.badRequest "Invalid Stacks address format", []) ∧
    promptRoute w0 "not-an-address" = (PromptResp.badRequest "Invalid Stacks address format", []) ∧
    cardRoute w0 "not-an-address" (some "abc") =
      (CardResp.badRequest "Invalid Stacks address format", []) ∧
    (DataResp.badRequest "Invalid Stacks address format").status = 400 ∧
    (PromptResp.badRequest "Invalid Stacks address format").status = 400 ∧
    (CardResp.badRequest "Invalid Stacks address format").status = 400 :=
  c4_invalid_address w0 "not-an-address" (some "abc") (by decide)

/-! ### Card-route branch lemmas -/

lemma cardRoute_nopay (w : World) (addr : String) (hdr : Option String)
    (haddr : validAddress addr = true) (hfalsy : jsTruthy hdr = false) :
    cardRoute w addr hdr = (CardResp.challenge (mkChallenge addr w.nonce w.expiresAt), []) := by
  rw [cardRoute, if_neg (by simp [haddr]), if_pos hfalsy]

lemma cardRoute_paid_invalid (w : World) (addr t : String)
    (haddr : validAddress addr = true) (ht : t ≠ "")
    (hv : (verifyPayment w.txRes t).valid = false) :
    cardRoute w addr (some t) =
      (CardResp.verifyFailed (verifyPayment w.txRes t).error,
       [UpstreamCall.txLookup (normalizeTxid t)]) := by
  rw [cardRoute, if_neg (by simp [haddr]),
      if_neg (by simp [jsTruthy_some_of_ne t ht])]
  simp only [Option.getD_some]
  rw [if_pos hv]

lemma cardRoute_paid_genfail (w : World) (addr t : String)
    (haddr : validAddress addr = true) (ht : t ≠ "")
    (hv : (verifyPayment w.txRes t).valid = true)
    (hg : (generateImage (jsOr w.openaiKey "") w.genRes
            (buildImagePrompt (aggregateWallet w addr))).1.success = false) :
    cardRoute w addr (some t) =
      (CardResp.genFailed
        (generateImage (jsOr w.openaiKey "") w.genRes
          (buildImagePrompt (aggregateWallet w addr))).1.error
        (aggregateWallet w addr) (buildImagePrompt (aggregateWallet w addr)) true t,
       [UpstreamCall.txLookup (normalizeTxid t)] ++ walletLookupCalls addr ++
         (generateImage (jsOr w.openaiKey "") w.genRes
           (buildImagePrompt (aggregateWallet w addr))).2) := by
  rw [cardRoute, if_neg (by simp [haddr]),
      if_neg (by simp [jsTruthy_some_of_ne t ht])]
  simp only [Option.getD_some]
  rw [if_neg (by simp [hv]), if_pos hg]

lemma cardRoute_paid_imgfail (w : World) (addr t url : String)
    (haddr : validAddress addr = true) (ht : t ≠ "")
    (hv : (verifyPayment w.txRes t).valid = true)
    (hs : (generateImage (jsOr w.openaiKey "") w.genRes
            (buildImagePrompt (aggregateWallet w addr))).1.success = true)
    (hurl : (generateImage (jsOr w.openaiKey "") w.genRes
              (buildImagePrompt (aggregateWallet w addr))).1.imageUrl = some url)
    (hi : w.imgRes url = ImgFetch.notOk) :
    cardRoute w addr (some t) =
      (CardResp.imgFetchFailed url (aggregateWallet w addr),
       [UpstreamCall.txLookup (normalizeTxid t)] ++ walletLookupCalls addr ++
         (generateImage (jsOr w.openaiKey "") w.genRes
           (buildImagePrompt (aggregateWallet w addr))).2 ++
         [UpstreamCall.imageFetch url]) := by
  rw [cardRoute, if_neg (by simp [haddr]),
      if_neg (by simp [jsTruthy_some_of_ne t ht])]
  simp only [Option.getD_some]
  rw [if_neg (by simp [hv]), if_neg (by simp [hs]), hurl]
  simp only [Option.getD_some]
  rw [hi]

/-- When the API key is non-empty, the generation call's trace is
exactly one `genImage` event with the prompt that was passed in. -/
lemma generateImage_trace (apiKey : String) (genRes : String → GenFetch) (p : String)
    (hk : apiKey ≠ "") :
    (generateImage apiKey genRes p).2 = [UpstreamCall.genImage p] := by
  rw [generateImage, if_neg hk]
  cases genRes p <;> rfl

/-- On the paid path with a valid verdict and a configured key, the
generator is invoked with the prompt built from the aggregated record. -/
lemma genImage_in_paid_trace (w : World) (addr t : String)
    (haddr : validAddress addr = true) (ht : t ≠ "")
    (hv : (verifyPayment w.txRes t).valid = true)
    (hk : jsOr w.openaiKey "" ≠ "") :
    UpstreamCall.genImage (buildImagePrompt (aggregateWallet w addr)) ∈
      (cardRoute w addr (some t)).2 := by
  have hgen := generateImage_trace (jsOr w.openaiKey "") w.genRes
    (buildImagePrompt (aggregateWallet w addr)) hk
  rw [cardRoute, if_neg (by simp [haddr]),
      if_neg (by simp [jsTruthy_some_of_ne t ht])]
  simp only [Option.getD_some]
  rw [if_neg (by simp [hv])]
  by_cases hs : (generateImage (jsOr w.openaiKey "") w.genRes
      (buildImagePrompt (aggregateWallet w addr))).1.success = false
  · rw [if_pos hs]
    simp [hgen]
  · rw [if_neg hs]
    cases hi : w.imgRes ((generateImage (jsOr w.openaiKey "") w.genRes
        (buildImagePrompt (aggregateWallet w addr))).1.imageUrl.getD "") <;>
      simp [hi, hgen]

/-- On the paid path the response is one of the five
post-verification outcomes — never a challenge. -/
lemma cardRoute_paid_cases (w : World) (addr t : String)
    (haddr : validAddress addr = true) (ht : t ≠ "") :
    (cardRoute w addr (some t)).1 = CardResp.verifyFailed (verifyPayment w.txRes t).error ∨
    (∃ d wd p, (cardRoute w addr (some t)).1 = CardResp.genFailed d wd p true t) ∨
    (∃ u wd, (cardRoute w addr (some t)).1 = CardResp.imgFetchFailed u wd) ∨
    (cardRoute w addr (some t)).1 = CardResp.uncaught ∨
    (∃ b hd, (cardRoute w addr (some t)).1 = CardResp.image b hd) := by
  by_cases hv : (verifyPayment w.txRes t).valid = false
  · left
    rw [cardRoute_paid_invalid w addr t haddr ht hv]
  · have hv' : (verifyPayment w.txRes t).valid = true := by
      simpa using hv
    by_cases hs : (generateImage (jsOr w.openaiKey "") w.genRes
        (buildImagePrompt (aggregateWallet w addr))).1.success = false
    · right; left
      exact ⟨_, _, _, by rw [cardRoute_paid_genfail w addr t haddr ht hv' hs]⟩
    · rw [cardRoute, if_neg (by simp [haddr]),
          if_neg (by simp [jsTruthy_some_of_ne t ht])]
      simp only [Option.getD_some]
      rw [if_neg (by simp [hv']), if_neg hs]
      cases hi : w.imgRes ((generateImage (jsOr w.openaiKey "") w.genRes
          (buildImagePrompt (aggregateWallet w addr))).1.imageUrl.getD "") with
      | exn => right; right; right; left; simp [hi]
      | notOk =>
        right; right; left
        refine ⟨(generateImage (jsOr w.openaiKey "") w.genRes
            (buildImagePrompt (aggregateWallet w addr))).1.imageUrl.getD "",
          aggregateWallet w addr, ?_⟩
        rfl
      | ok bytes =>
        right; right; right; right
        refine ⟨bytes,
          { contentType := "image/png", cacheControl := "public, max-age=3600",
            xWalletAddress := addr,
            xBnsName := jsOr (aggregateWallet w addr).bnsName "none",
            xPaymentVerified := "true" }, ?_⟩
        rfl

/-! ### Claim theorems (card-route claims) -/

/-- C1 (counterexample): on a valid address with no payment claim the
gate does answer with the 402 challenge, but the challenge payload's
keys do not include `walletData` or `prompt` — the already-computed
WalletRecord and Prompt are NOT embedded (indeed nothing is computed:
the upstream trace is empty). -/
theorem c1_counterexample :
    (cardRoute w0 A0 none).1 = CardResp.challenge (mkChallenge A0 w0.nonce w0.expiresAt) ∧
    (CardResp.challenge (mkChallenge A0 w0.nonce w0.expiresAt)).status = 402 ∧
    "walletData" ∉ challengeFields ∧
    "prompt" ∉ challengeFields ∧
    (cardRoute w0 A0 none).2 = [] := by
  refine ⟨by decide, rfl, by decide, by decide, by decide⟩

/-- C1 (amended): with a valid address and no payment claim, `/card`
answers 402 with the challenge payload (payment target, mechanism,
price, nonce, expiry, resource, instructions, description) WITHOUT the
WalletRecord or Prompt and with zero upstream calls; the prompt that
`/prompt` serves for the same address is the one the paid path hands to
the generator. -/
theorem c1_amended_challenge (w : World) (addr : String)
    (haddr : validAddress addr = true) :
    cardRoute w addr none = (CardResp.challenge (mkChallenge addr w.nonce w.expiresAt), []) ∧
    (CardResp.challenge (mkChallenge addr w.nonce w.expiresAt)).status = 402 ∧
    "walletData" ∉ challengeFields ∧
    "prompt" ∉ challengeFields ∧
    (promptRoute w addr).1 =
      PromptResp.okPrompt (aggregateWallet w addr)
        (buildImagePrompt (aggregateWallet w addr)) promptNote ∧
    (∀ t, t ≠ "" → (verifyPayment w.txRes t).valid = true → jsOr w.openaiKey "" ≠ "" →
      UpstreamCall.genImage (buildImagePrompt (aggregateWallet w addr)) ∈
        (cardRoute w addr (some t)).2) := by
  refine ⟨cardRoute_nopay w addr none haddr rfl, rfl, by decide, by decide, ?_, ?_⟩
  · rw [promptRoute, if_neg (by simp [haddr])]
  · intro t ht hv hk
    exact genImage_in_paid_trace w addr t haddr ht hv hk

/-- C1 witness: the amended challenge behaviour at the concrete world. -/
theorem c1_witness :
    cardRoute w0 A0 none = (CardResp.challenge (mkChallenge A0 w0.nonce w0.expiresAt), []) ∧
    (CardResp.challenge (mkChallenge A0 w0.nonce w0.expiresAt)).status = 402 :=
  ⟨(c1_amended_challenge w0 A0 (by decide)).1, (c1_amended_challenge w0 A0 (by decide)).2.1⟩

/-- C6 (counterexample): on a valid address with no payment claim the
challenge is emitted with an EMPTY upstream trace — the Wallet
Aggregator did not run before the branch on claim presence, so the gate
does not reach an "Aggregated" state first. -/
theorem c6_counterexample :
    cardRoute w0 A0 none = (CardResp.challenge (mkChallenge A0 w0.nonce w0.expiresAt), []) ∧
    UpstreamCall.bnsLookup A0 ∉ (cardRoute w0 A0 none).2 ∧
    UpstreamCall.balancesLookup A0 ∉ (cardRoute w0 A0 none).2 := by
  refine ⟨by decide, by decide, by decide⟩

/-- C6 (amended): after address validation, `/card` branches on claim
presence FIRST: no claim → immediate 402 challenge with zero upstream
calls; claim present → payment verification runs first and is the only
upstream call when the verdict is Invalid; the wallet lookups (and the
prompt build) happen only after a Valid verdict. -/
theorem c6_amended_order (w : World) (addr : String)
    (haddr : validAddress addr = true) :
    cardRoute w addr none = (CardResp.challenge (mkChallenge addr w.nonce w.expiresAt), []) ∧
    (∀ t, t ≠ "" → (verifyPayment w.txRes t).valid = false →
      cardRoute w addr (some t) =
        (CardResp.verifyFailed (verifyPayment w.txRes t).error,
         [UpstreamCall.txLookup (normalizeTxid t)])) ∧
    (∀ t, t ≠ "" → (verifyPayment w.txRes t).valid = true →
      ∃ rest, (cardRoute w addr (some t)).2 =
        UpstreamCall.txLookup (normalizeTxid t) :: (walletLookupCalls addr ++ rest)) := by
  refine ⟨cardRoute_nopay w addr none haddr rfl, ?_, ?_⟩
  · intro t ht hv
    exact cardRoute_paid_invalid w addr t haddr ht hv
  · intro t ht hv
    by_cases hs : (generateImage (jsOr w.openaiKey "") w.genRes
        (buildImagePrompt (aggregateWallet w addr))).1.success = false
    · refine ⟨(generateImage (jsOr w.openaiKey "") w.genRes
        (buildImagePrompt (aggregateWallet w addr))).2, ?_⟩
      rw [cardRoute_paid_genfail w addr t haddr ht hv hs]
      simp [List.append_assoc]
    · rw [cardRoute, if_neg (by simp [haddr]),
          if_neg (by simp [jsTruthy_some_of_ne t ht])]
      simp only [Option.getD_some]
      rw [if_neg (by simp [hv]), if_neg hs]
      cases hi : w.imgRes ((generateImage (jsOr w.openaiKey "") w.genRes
          (buildImagePrompt (aggregateWallet w addr))).1.imageUrl.getD "") with
      | exn =>
        refine ⟨(generateImage (jsOr w.openaiKey "") w.genRes
          (buildImagePrompt (aggregateWallet w addr))).2 ++
            [UpstreamCall.imageFetch ((generateImage (jsOr w.openaiKey "") w.genRes
              (buildImagePrompt (aggregateWallet w addr))).1.imageUrl.getD "")], ?_⟩
        simp [hi, List.append_assoc]
      | notOk =>
        refine ⟨(generateImage (jsOr w.openaiKey "") w.genRes
          (buildImagePrompt (aggregateWallet w addr))).2 ++
            [UpstreamCall.imageFetch ((generateImage (jsOr w.openaiKey "") w.genRes
              (buildImagePrompt (aggregateWallet w addr))).1.imageUrl.getD "")], ?_⟩
        simp [hi, List.append_assoc]
      | ok bytes =>
        refine ⟨(generateImage (jsOr w.openaiKey "") w.genRes
          (buildImagePrompt (aggregateWallet w addr))).2 ++
            [UpstreamCall.imageFetch ((generateImage (jsOr w.openaiKey "") w.genRes
              (buildImagePrompt (aggregateWallet w addr))).1.imageUrl.getD "")], ?_⟩
        simp [hi, List.append_assoc]

/-- C6 witness: the claim-first branching at the concrete world. -/
theorem c6_witness :
    cardRoute w0 A0 none = (CardResp.challenge (mkChallenge A0 w0.nonce w0.expiresAt), []) ∧
    cardRoute w0 A0 (some "deadbeef") =
      (CardResp.verifyFailed (verifyPayment w0.txRes "deadbeef").error,
       [UpstreamCall.txLookup (normalizeTxid "deadbeef")]) :=
  ⟨(c6_amended_order w0 A0 (by decide)).1,
   (c6_amended_order w0 A0 (by decide)).2.1 "deadbeef" (by decide) (by decide)⟩

/-- C9 (counterexample): a request CARRYING a payment claim whose value
is the empty string is routed straight back to the 402 challenge branch
(`if (!paymentTxid)` treats the empty header value as absent), so the
presence of a claim does not always force the Verifying branch. -/
theorem c9_counterexample :
    cardRoute w0 A0 (some "") =
      (CardResp.challenge (mkChallenge A0 w0.nonce w0.expiresAt), []) := by
  decide

/-- C9 (amended): any NON-EMPTY payment-claim value — however malformed
— forces the Verifying branch: the response is never the 402 challenge,
and an Invalid verdict yields a 403 naming the specific reason; an
empty-string claim value, however, is treated as no claim at all. -/
theorem c9_amended_claim_routing (w : World) (addr t : String)
    (haddr : validAddress addr = true) (ht : t ≠ "") :
    (∀ c, (cardRoute w addr (some t)).1 ≠ CardResp.challenge c) ∧
    ((verifyPayment w.txRes t).valid = false →
      (cardRoute w addr (some t)).1 = CardResp.verifyFailed (verifyPayment w.txRes t).error ∧
      (cardRoute w addr (some t)).1.status = 403) := by
  constructor
  · intro c hcon
    rcases cardRoute_paid_cases w addr t haddr ht with
      h | ⟨d, wd, p, h⟩ | ⟨u, wd, h⟩ | h | ⟨b, hd, h⟩ <;>
      rw [h] at hcon <;> exact CardResp.noConfusion hcon
  · intro hv
    have h := cardRoute_paid_invalid w addr t haddr ht hv
    rw [h]
    exact ⟨rfl, rfl⟩

/-- C9 witness: a malformed non-empty claim yields the 403 with its
reason, not a re-challenge. -/
theorem c9_witness :
    (cardRoute w0 A0 (some "deadbeef")).1 ≠
      CardResp.challenge (mkChallenge A0 w0.nonce w0.expiresAt) ∧
    (cardRoute w0 A0 (some "deadbeef")).1 =
      CardResp.verifyFailed (verifyPayment w0.txRes "deadbeef").error ∧
    (cardRoute w0 A0 (some "deadbeef")).1.status = 403 :=
  ⟨(c9_amended_claim_routing w0 A0 "deadbeef" (by decide) (by decide)).1
      (mkChallenge A0 w0.nonce w0.expiresAt),
   ((c9_amended_claim_routing w0 A0 "deadbeef" (by decide) (by decide)).2 (by decide)).1,
   ((c9_amended_claim_routing w0 A0 "deadbeef" (by decide) (by decide)).2 (by decide)).2⟩

/-- C5 (counterexample): a run with a Valid payment in which the
generator succeeds but the artifact-bytes fetch returns non-2xx: the
response is a 500 whose JSON literal keys are only
`error, imageUrl, walletData` — it carries no `prompt`, no
`payment_received` flag and no `payment_txid`, contradicting the claim
that every post-payment generation failure flags captured payment. -/
theorem c5_counterexample :
    (cardRoute w0 A0 (some "abc")).1 =
      CardResp.imgFetchFailed "https://images.example/one" (aggregateWallet w0 A0) ∧
    (cardRoute w0 A0 (some "abc")).1.status = 500 ∧
    "prompt" ∉ imgFetchFailedFields ∧
    "payment_received" ∉ imgFetchFailedFields ∧
    "payment_txid" ∉ imgFetchFailedFields := by
  refine ⟨by decide, ?_, by decide, by decide, by decide⟩
  rw [(by decide : (cardRoute w0 A0 (some "abc")).1 =
    CardResp.imgFetchFailed "https://images.example/one" (aggregateWallet w0 A0))]
  rfl

/-- C5 (amended): after a Valid payment, a generator rejection yields a
500 carrying the WalletRecord, the Prompt, `payment_received := true`
and the payment txid; but a failure of the subsequent artifact-bytes
fetch yields a 500 carrying only the image URL and the WalletRecord —
without the Prompt and without any payment-received flag. -/
theorem c5_amended_generation_errors (w : World) (addr t : String)
    (haddr : validAddress addr = true) (ht : t ≠ "")
    (hv : (verifyPayment w.txRes t).valid = true) :
    ((generateImage (jsOr w.openaiKey "") w.genRes
        (buildImagePrompt (aggregateWallet w addr))).1.success = false →
      (cardRoute w addr (some t)).1 =
        CardResp.genFailed
          (generateImage (jsOr w.openaiKey "") w.genRes
            (buildImagePrompt (aggregateWallet w addr))).1.error
          (aggregateWallet w addr) (buildImagePrompt (aggregateWallet w addr)) true t ∧
      (cardRoute w addr (some t)).1.status = 500) ∧
    (∀ url, (generateImage (jsOr w.openaiKey "") w.genRes
        (buildImagePrompt (aggregateWallet w addr))).1.success = true →
      (generateImage (jsOr w.openaiKey "") w.genRes
        (buildImagePrompt (aggregateWallet w addr))).1.imageUrl = some url →
      w.imgRes url = ImgFetch.notOk →
      (cardRoute w addr (some t)).1 = CardResp.imgFetchFailed url (aggregateWallet w addr) ∧
      (cardRoute w addr (some t)).1.status = 500) ∧
    "walletData" ∈ genFailedFields ∧ "prompt" ∈ genFailedFields ∧
    "payment_received" ∈ genFailedFields ∧ "payment_txid" ∈ genFailedFields ∧
    "prompt" ∉ imgFetchFailedFields ∧ "payment_received" ∉ imgFetchFailedFields := by
  refine ⟨?_, ?_, by decide, by decide, by decide, by decide, by decide, by decide⟩
  · intro hg
    rw [cardRoute_paid_genfail w addr t haddr ht hv hg]
    exact ⟨rfl, rfl⟩
  · intro url hs hurl hi
    rw [cardRoute_paid_imgfail w addr t url haddr ht hv hs hurl hi]
    exact ⟨rfl, rfl⟩

/-- C5 witness: the artifact-fetch-failure clause at the concrete world. -/
theorem c5_witness :
    (cardRoute w0 A0 (some "abc")).1 =
      CardResp.imgFetchFailed "https://images.example/one" (aggregateWallet w0 A0) ∧
    (cardRoute w0 A0 (some "abc")).1.status = 500 :=
  (c5_amended_generation_errors w0 A0 "abc" (by decide) (by decide) (by decide)).2.1
    "https://images.example/one" (by decide) (by decide) (by decide)

/-- C7: the Prompt Builder is a pure, total, deterministic function of
the WalletRecord — equal records give byte-identical prompts — and the
pre-payment preview agrees with the post-payment use: `/prompt` serves
exactly `buildImagePrompt` of the aggregated record, and the paid path
hands exactly that prompt to the generator. -/
theorem c7_prompt_deterministic (w1 w2 : WalletData) (world : World) (addr t : String)
    (h12 : w1 = w2) (haddr : validAddress addr = true) (ht : t ≠ "")
    (hv : (verifyPayment world.txRes t).valid = true)
    (hk : jsOr world.openaiKey "" ≠ "") :
    buildImagePrompt w1 = buildImagePrompt w2 ∧
    (promptRoute world addr).1 =
      PromptResp.okPrompt (aggregateWallet world addr)
        (buildImagePrompt (aggregateWallet world addr)) promptNote ∧
    UpstreamCall.genImage (buildImagePrompt (aggregateWallet world addr)) ∈
      (cardRoute world addr (some t)).2 := by
  refine ⟨by rw [h12], ?_, genImage_in_paid_trace world addr t haddr ht hv hk⟩
  rw [promptRoute, if_neg (by simp [haddr])]

/-- C7 witness: determinism and the preview agreement at the concrete
world and a concrete record. -/
theorem c7_witness :
    buildImagePrompt (aggregateWallet w0 A0) = buildImagePrompt (aggregateWallet w0 A0) ∧
    (promptRoute w0 A0).1 =
      PromptResp.okPrompt (aggregateWallet w0 A0)
        (buildImagePrompt (aggregateWallet w0 A0)) promptNote ∧
    UpstreamCall.genImage (buildImagePrompt (aggregateWallet w0 A0)) ∈
      (cardRoute w0 A0 (some "abc")).2 :=
  c7_prompt_deterministic (aggregateWallet w0 A0) (aggregateWallet w0 A0) w0 A0 "abc"
    rfl (by decide) (by decide) (by decide) (by decide)

/-! ### C8: truncation and counting fixtures -/

/-- Eight fungible-token entries as the balances endpoint would list
them (insertion order). -/
def ftsW : List (String × FtRaw) :=
  [("SP1.ct::T1", ⟨some "1000000"⟩), ("SP1.ct::T2", ⟨some "2000000"⟩),
   ("SP1.ct::T3", ⟨some "3000000"⟩), ("SP1.ct::T4", ⟨some "4000000"⟩),
   ("SP1.ct::T5", ⟨some "5000000"⟩), ("SP1.ct::T6", ⟨some "6000000"⟩),
   ("SP1.ct::T7", ⟨some "7000000"⟩), ("SP1.ct::T8", ⟨some "8000000"⟩)]

/-- Seven non-fungible collections with item counts 1..7 (sum 28). -/
def nftsW : List (String × NftRaw) :=
  [("SP1.col1::n1", ⟨some "1"⟩), ("SP1.col2::n2", ⟨some "2"⟩),
   ("SP1.col3::n3", ⟨some "3"⟩), ("SP1.col4::n4", ⟨some "4"⟩),
   ("SP1.col5::n5", ⟨some "5"⟩), ("SP1.col6::n6", ⟨some "6"⟩),
   ("SP1.col7::n7", ⟨some "7"⟩)]

/-- A balances payload holding the eight holdings and seven collections. -/
def dataW : BalancesPayload :=
  { stx := none, fungible_tokens := some ftsW, non_fungible_tokens := some nftsW }

/-- The five entries the truncation keeps, in provider order. -/
def entsW : List FtEntry :=
  [⟨"T1", "1.00", "T1"⟩, ⟨"T2", "2.00", "T2"⟩, ⟨"T3", "3.00", "T3"⟩,
   ⟨"T4", "4.00", "T4"⟩, ⟨"T5", "5.00", "T5"⟩]

/-- The parsed per-collection item counts, for all seven collections. -/
def valsW : List Nat := [1, 2, 3, 4, 5, 6, 7]

/-- C8: when the provider payload parses, the aggregated record keeps
exactly the first 5 fungible entries in provider order (`min 5` of the
returned count) and the first 3 collection entries (`min 3`), while the
non-fungible count sums the item counts of ALL returned collections,
not only the displayed 3. -/
theorem c8_truncation (data : BalancesPayload) (fts : List (String × FtRaw))
    (nfts : List (String × NftRaw)) (ents : List FtEntry) (vals : List Nat)
    (hft : data.fungible_tokens = some fts)
    (hnft : data.non_fungible_tokens = some nfts)
    (hents : (fts.take 5).map ftEntryOfRaw = ents.map some)
    (hvals : nfts.map (fun kv => jsParseIntNat (jsOr kv.2.count "0")) = vals.map some) :
    getFtBalances (FetchResult.ok data) = ents ∧
    ents.length = min 5 fts.length ∧
    (getNftHoldings (FetchResult.ok data)).top = (nfts.take 3).map nftTopOfRaw ∧
    (getNftHoldings (FetchResult.ok data)).top.length = min 3 nfts.length ∧
    (getNftHoldings (FetchResult.ok data)).count = some vals.sum ∧
    vals.length = nfts.length := by
  refine ⟨?_, ?_, ?_, ?_, ?_, ?_⟩
  · simp only [getFtBalances, hft, Option.getD_some]
    rw [mapThrow_of_map_some ftEntryOfRaw (fts.take 5) ents hents]
  · have h := congrArg List.length hents
    simp only [List.length_map, List.length_take] at h
    exact h.symm
  · simp only [getNftHoldings, hnft, Option.getD_some]
  · simp only [getNftHoldings, hnft, Option.getD_some, List.length_map, List.length_take]
  · simp only [getNftHoldings, hnft, Option.getD_some]
    exact nftCountSum_of_parses nfts vals hvals
  · have h := congrArg List.length hvals
    simp only [List.length_map] at h
    exact h.symm

/-- C8 witness: 8 holdings and 7 collections — the record exposes
exactly 5 holdings and 3 collections while the count sums all 7
(1 + 2 + ... + 7 = 28). -/
theorem c8_witness :
    getFtBalances (FetchResult.ok dataW) = entsW ∧
    entsW.length = min 5 ftsW.length ∧
    (getNftHoldings (FetchResult.ok dataW)).top = (nftsW.take 3).map nftTopOfRaw ∧
    (getNftHoldings (FetchResult.ok dataW)).top.length = min 3 nftsW.length ∧
    (getNftHoldings (FetchResult.ok dataW)).count = some valsW.sum ∧
    valsW.length = nftsW.length :=
  c8_truncation dataW ftsW nftsW entsW valsW rfl rfl (by decide) (by decide)

end WalletCard
